import Mathlib

/-!
Shallow embedding of the poly-sdk order-lifecycle reconciliation engine:
the canonical order-status enum, the `validTransitions` table and the
`mapApiStatusToInternal` status mapper (both given verbatim in the
repository's state-machine document), together with the fill-accounting
and order-registry operations described by the design spec (the running
`order-manager` implementation itself is only referenced by the
repository's test scripts, so those operations are modelled from the
spec's wording and marked as such).
-/

namespace PolySdk

/-- The canonical internal order statuses (SDK enum `OrderStatus`). -/
inductive OrderStatus where
  | PENDING
  | OPEN
  | PARTIALLY_FILLED
  | FILLED
  | CANCELLED
  | EXPIRED
  | REJECTED
  deriving DecidableEq

/-- The `validTransitions` table from the state-machine document:
legal outward transitions for each status. -/
def validTransitions : OrderStatus → List OrderStatus
  | .PENDING => [.OPEN, .PARTIALLY_FILLED, .FILLED, .CANCELLED, .EXPIRED, .REJECTED]
  | .OPEN => [.PARTIALLY_FILLED, .FILLED, .CANCELLED, .EXPIRED]
  | .PARTIALLY_FILLED => [.FILLED, .CANCELLED, .EXPIRED]
  | .FILLED => []
  | .CANCELLED => []
  | .EXPIRED => []
  | .REJECTED => []

/-- The helper `isTerminalStatus` from the state-machine document. -/
def isTerminalStatus (s : OrderStatus) : Bool :=
  s = .FILLED ∨ s = .CANCELLED ∨ s = .EXPIRED ∨ s = .REJECTED

/-- The helper `isActiveStatus` from the state-machine document. -/
def isActiveStatus (s : OrderStatus) : Bool :=
  s = .PENDING ∨ s = .OPEN ∨ s = .PARTIALLY_FILLED

/-- Modelled from the spec: the state machine's acceptance test, combining the
`validTransitions` table with note 3 of the state-machine document
("Same-status transitions are valid: order staying in same state is a no-op").
The checker function itself is inside the unexported order-manager module. -/
def isValidTransition (s t : OrderStatus) : Bool :=
  s = t ∨ t ∈ validTransitions s

/-- Modelled from the spec: the registry's reaction to a candidate status
(spec §4.2/§4.4) — an attempted transition not accepted by the table is
rejected as a no-op and the local state is preserved; the order-manager
module holding this code is not part of the visible sources. -/
def applyTransition (s t : OrderStatus) : OrderStatus :=
  if isValidTransition s t then t else s

/-! ## Status Mapper

`mapApiStatusToInternal` is given verbatim in the state-machine document.
Its input is a raw `OpenOrder` API payload whose `status`, `original_size`
and `size_matched` fields are optional strings; sizes go through JavaScript
`Number(x) || 0` coercion, which we embed as a decimal-string parser that
yields 0 on an absent or unparsable field. -/

/-- Value of a decimal digit character, `none` on a non-digit. -/
def digitVal (c : Char) : Option Nat :=
  if c.isDigit then some (c.toNat - 48) else none

/-- Parse a non-empty all-digit character list as a natural number. -/
def parseDigits : List Char → Option Nat
  | [] => none
  | cs => cs.foldlM (fun acc c => (digitVal c).map (fun d => acc * 10 + d)) 0

/-- Parse an unsigned decimal numeral, with an optional fractional part. -/
def parseUnsigned (cs : List Char) : Option ℚ :=
  match cs.splitOn '.' with
  | [ip] => (parseDigits ip).map (fun n => (n : ℚ))
  | [ip, fp] =>
    if ip.isEmpty && fp.isEmpty then none
    else if ip.isEmpty then (parseDigits fp).map (fun n => (n : ℚ) / 10 ^ fp.length)
    else if fp.isEmpty then (parseDigits ip).map (fun n => (n : ℚ))
    else do
      let i ← parseDigits ip
      let f ← parseDigits fp
      pure ((i : ℚ) + (f : ℚ) / 10 ^ fp.length)
  | _ => none

/-- Parse a decimal numeral with optional sign; the empty string coerces
to 0, as JavaScript `Number("")` does. -/
def parseDec (s : String) : Option ℚ :=
  match s.data with
  | [] => some 0
  | '-' :: cs => (parseUnsigned cs).map (fun q => -q)
  | '+' :: cs => parseUnsigned cs
  | cs => parseUnsigned cs

/-- JavaScript `Number(x) || 0` on an optional string field: absent or
unparsable (NaN) fields, and the falsy value 0, all coerce to 0. -/
def numOr0 (s : Option String) : ℚ :=
  match s with
  | none => 0
  | some t => (parseDec t).getD 0

/-- ASCII lowering of one character, as JavaScript `toLowerCase` acts on
the ASCII status tokens the venue emits. -/
def lowerChar (c : Char) : Char :=
  if 'A' ≤ c ∧ c ≤ 'Z' then Char.ofNat (c.toNat + 32) else c

/-- ASCII lowering of a string, written structurally over the character
list so that concrete applications reduce. -/
def lowerStr (s : String) : String :=
  ⟨s.data.map lowerChar⟩

/-- The raw venue order payload fields consumed by the status mapper. -/
structure OpenOrder where
  status : Option String
  original_size : Option String
  size_matched : Option String
  deriving DecidableEq

/-- JavaScript `apiOrder.status?.toLowerCase() || 'live'`: an absent status,
or one that lowercases to the empty (falsy) string, defaults to `"live"`. -/
def effStatus (o : OpenOrder) : String :=
  match o.status with
  | none => "live"
  | some s => if lowerStr s = "" then "live" else lowerStr s

/-- The status mapper `mapApiStatusToInternal` from the state-machine
document, translated clause by clause. -/
def mapApiStatusToInternal (o : OpenOrder) : OrderStatus :=
  if effStatus o = "matched" then
    if numOr0 o.original_size ≤ numOr0 o.size_matched then .FILLED
    else if 0 < numOr0 o.size_matched then .PARTIALLY_FILLED
    else .OPEN
  else if effStatus o = "live" then
    if 0 < numOr0 o.size_matched then
      if numOr0 o.original_size ≤ numOr0 o.size_matched then .FILLED
      else .PARTIALLY_FILLED
    else .OPEN
  else if effStatus o = "delayed" then .PENDING
  else if effStatus o = "cancelled" then .CANCELLED
  else if effStatus o = "expired" then .EXPIRED
  else .OPEN

/-! ## Fill Accountant

The fill-accounting code lives in the order-manager module, which the
visible sources only call and document; the definitions below are
modelled from the design spec (§3 TradeEvent, §4.3 Fill Accountant). -/

/-- Modelled from the spec: the role a trade reports for an order. -/
inductive Role where
  | maker
  | taker
  deriving DecidableEq

/-- Modelled from the spec: the venue-side trade status values. -/
inductive TradeStatus where
  | MATCHED
  | MINED
  | CONFIRMED
  | RETRYING
  | FAILED
  deriving DecidableEq

/-- Modelled from the spec: a TradeEvent as consumed by the Fill
Accountant — tradeId, orderId, matchedAmount, price, overall trade size,
role, venue trade status and timestamp. -/
structure TradeEvent where
  tradeId : String
  orderId : String
  matchedAmount : ℚ
  price : ℚ
  size : ℚ
  role : Role
  venueTradeStatus : TradeStatus
  timestamp : ℕ
  deriving DecidableEq

/-- The fill delta together with the observability flag that records a
fallback application. -/
structure FillResult where
  delta : ℚ
  fallbackApplied : Bool
  deriving DecidableEq

/-- Modelled from the spec (§4.3): `delta = matchedAmount` normally; when
the trade reports the order's role as maker with `matchedAmount == 0`
while the trade's overall size is non-zero and the order is a
participant, the fallback `delta = tradeEvent.size` applies and is
recorded via the flag. The order-manager module holding this code is not
part of the visible sources. -/
def fillDelta (t : TradeEvent) (participant : Bool) : FillResult :=
  if t.role = Role.maker ∧ t.matchedAmount = 0 ∧ t.size ≠ 0 ∧ participant = true then
    ⟨t.size, true⟩
  else
    ⟨t.matchedAmount, false⟩

/-- Modelled from the spec (§4.3):
`cumulativeFilled_new = min(originalSize, cumulativeFilled_old + delta)`. -/
def applyFillAmount (originalSize cum delta : ℚ) : ℚ :=
  min originalSize (cum + delta)

/-- Cumulative fill after a whole sequence of accepted fill deltas. -/
def applyFills (originalSize cum : ℚ) (deltas : List ℚ) : ℚ :=
  deltas.foldl (applyFillAmount originalSize) cum

/-! ## Reconciliation engine de-duplication

Modelled from the spec (§3 TradeEvent lifecycle, §4.3): the engine keeps
a de-duplication set of `(tradeId, orderId)` pairs already applied, and a
redelivered pair is dropped before reaching the Fill Accountant. -/

/-- The engine's per-order fill state: applied `(tradeId, orderId)` pairs
and the running cumulative fill. -/
structure EngineState where
  applied : List (String × String)
  cumulativeFilled : ℚ
  deriving DecidableEq

/-- Modelled from the spec: processing one trade event — a
`(tradeId, orderId)` pair already in the de-duplication set is dropped
before the Fill Accountant runs; otherwise the fill delta is computed and
the cumulative fill updated with the clamped sum. -/
def processTrade (originalSize : ℚ) (st : EngineState) (t : TradeEvent)
    (participant : Bool) : EngineState :=
  if (t.tradeId, t.orderId) ∈ st.applied then st
  else
    { applied := (t.tradeId, t.orderId) :: st.applied,
      cumulativeFilled :=
        applyFillAmount originalSize st.cumulativeFilled (fillDelta t participant).delta }

/-! ## Order Registry

Modelled from the spec (§3 WatchedOrder, §4.4 Order Registry):
`initialTokenId` is set once at registration and never overwritten;
reconciliation updates touch only `observedTokenId`, `status` and
`cumulativeFilled`. -/

/-- Modelled from the spec: the registry's per-order record, restricted to
the fields the invariants speak about. -/
structure WatchedOrder where
  orderId : String
  initialTokenId : String
  observedTokenId : String
  status : OrderStatus
  cumulativeFilled : ℚ
  originalSize : ℚ
  deriving DecidableEq

/-- Modelled from the spec: a normalized poll/push update — the token the
venue currently reports, plus the candidate status and cumulative fill
produced by the Status Mapper / Fill Accountant. -/
structure OrderUpdate where
  reportedTokenId : String
  candidateStatus : OrderStatus
  candidateFilled : ℚ
  deriving DecidableEq

/-- Modelled from the spec: `watchOrder(orderId, initialTokenId)` registers
an order; both token fields start as the caller-supplied token and the
order starts PENDING with no fills. -/
def watchOrder (orderId tokenId : String) (originalSize : ℚ) : WatchedOrder :=
  { orderId := orderId
    initialTokenId := tokenId
    observedTokenId := tokenId
    status := OrderStatus.PENDING
    cumulativeFilled := 0
    originalSize := originalSize }

/-- Modelled from the spec: the reconciliation engine applies a poll/push
update to a watched order — `observedTokenId` follows the venue's report,
`status` moves only through the transition table, `cumulativeFilled` only
forward and clamped; `initialTokenId` is never touched (invariant I2). -/
def applyUpdate (w : WatchedOrder) (u : OrderUpdate) : WatchedOrder :=
  { w with
    observedTokenId := u.reportedTokenId
    status := applyTransition w.status u.candidateStatus
    cumulativeFilled :=
      if w.cumulativeFilled ≤ u.candidateFilled then
        min w.originalSize u.candidateFilled
      else w.cumulativeFilled }

/-! ## Helper lemmas -/

theorem applyFillAmount_le (os cum d : ℚ) : applyFillAmount os cum d ≤ os :=
  min_le_left _ _

theorem le_applyFillAmount (os cum d : ℚ) (hcum : cum ≤ os) (hd : 0 ≤ d) :
    cum ≤ applyFillAmount os cum d :=
  le_min hcum (by linarith)

theorem applyFills_le (os : ℚ) (ds : List ℚ) :
    ∀ cum : ℚ, cum ≤ os → applyFills os cum ds ≤ os := by
  induction ds with
  | nil => exact fun cum h => h
  | cons d ds ih =>
    intro cum h
    exact ih (applyFillAmount os cum d) (applyFillAmount_le os cum d)

theorem le_applyFills (os : ℚ) (ds : List ℚ) :
    ∀ cum : ℚ, cum ≤ os → (∀ x ∈ ds, 0 ≤ x) → cum ≤ applyFills os cum ds := by
  induction ds with
  | nil => exact fun cum _ _ => le_refl cum
  | cons d ds ih =>
    intro cum h hx
    have h1 : cum ≤ applyFillAmount os cum d :=
      le_applyFillAmount os cum d h (hx d (List.mem_cons_self d ds))
    have h2 : applyFillAmount os cum d ≤ os := applyFillAmount_le os cum d
    exact le_trans h1 (ih _ h2 (fun x m => hx x (List.mem_cons_of_mem d m)))

theorem foldl_applyUpdate_initialTokenId (l : List OrderUpdate) :
    ∀ w : WatchedOrder, (l.foldl applyUpdate w).initialTokenId = w.initialTokenId := by
  induction l with
  | nil => exact fun w => rfl
  | cons u l ih => exact fun w => ih (applyUpdate w u)

end PolySdk

namespace PolySdk

/-! ## Claim theorems -/

/-- C2: FILLED, CANCELLED, EXPIRED and REJECTED are terminal — the
transition table assigns them no outward transitions — and an event
attempting CANCELLED → OPEN is rejected, leaving the registry state
CANCELLED. -/
theorem terminal_states_closed :
    validTransitions OrderStatus.FILLED = [] ∧
    validTransitions OrderStatus.CANCELLED = [] ∧
    validTransitions OrderStatus.EXPIRED = [] ∧
    validTransitions OrderStatus.REJECTED = [] ∧
    isValidTransition OrderStatus.CANCELLED OrderStatus.OPEN = false ∧
    applyTransition OrderStatus.CANCELLED OrderStatus.OPEN = OrderStatus.CANCELLED := by
  decide

/-- C7: for every canonical status, a transition from the status to itself
is accepted by the state machine as a no-op. -/
theorem same_status_transition_noop (s : OrderStatus) :
    isValidTransition s s = true ∧ applyTransition s s = s := by
  cases s <;> exact ⟨rfl, rfl⟩

/-- C8: PENDING → FILLED and PENDING → CANCELLED are legal transitions, so
a FOK order may move from PENDING directly to FILLED or to CANCELLED, and
the resulting state is the terminal one, never OPEN. -/
theorem pending_direct_to_terminal :
    OrderStatus.FILLED ∈ validTransitions OrderStatus.PENDING ∧
    OrderStatus.CANCELLED ∈ validTransitions OrderStatus.PENDING ∧
    applyTransition OrderStatus.PENDING OrderStatus.FILLED = OrderStatus.FILLED ∧
    applyTransition OrderStatus.PENDING OrderStatus.CANCELLED = OrderStatus.CANCELLED ∧
    applyTransition OrderStatus.PENDING OrderStatus.FILLED ≠ OrderStatus.OPEN ∧
    applyTransition OrderStatus.PENDING OrderStatus.CANCELLED ≠ OrderStatus.OPEN := by
  decide

/-- C9: the status mapper sends `{status:"matched", original_size:"100",
size_matched:"100"}` to FILLED, `{status:"matched", original_size:"100",
size_matched:"40"}` to PARTIALLY_FILLED, and `{status:"live",
size_matched:"0"}` to OPEN. -/
theorem status_mapper_examples :
    mapApiStatusToInternal ⟨some "matched", some "100", some "100"⟩ = OrderStatus.FILLED ∧
    mapApiStatusToInternal ⟨some "matched", some "100", some "40"⟩ =
      OrderStatus.PARTIALLY_FILLED ∧
    mapApiStatusToInternal ⟨some "live", none, some "0"⟩ = OrderStatus.OPEN := by
  decide

/-- C10: with venue status token `matched`, the mapper returns FILLED
whenever `sizeMatched >= originalSize`, even when both sizes coerce to 0. -/
theorem matched_token_filled_of_ge (o : OpenOrder) (hs : o.status = some "matched")
    (hge : numOr0 o.original_size ≤ numOr0 o.size_matched) :
    mapApiStatusToInternal o = OrderStatus.FILLED := by
  obtain ⟨st, osz, sm⟩ := o
  cases hs
  have he : effStatus ⟨some "matched", osz, sm⟩ = "matched" := rfl
  unfold mapApiStatusToInternal
  rw [he]
  rw [if_pos (rfl : ("matched" : String) = "matched")]
  exact if_pos hge

/-- C10 witness: an input with status `matched` and both size fields absent
(each coercing to 0, and 0 ≥ 0) is mapped to FILLED. -/
theorem matched_token_filled_of_ge_witness :
    mapApiStatusToInternal ⟨some "matched", none, none⟩ = OrderStatus.FILLED :=
  matched_token_filled_of_ge ⟨some "matched", none, none⟩ rfl (by decide)

/-- C1 counterexample: each of the inputs `{status:"cancelled"}`,
`{status:"expired"}`, `{status:"delayed"}` and an unrecognized token, all
with `original_size:"100"` and `size_matched:"100"` (so `sizeMatched > 0`
and `sizeMatched ≥ originalSize`), is mapped to CANCELLED, EXPIRED,
PENDING and OPEN respectively — never FILLED — refuting the claim that
the fills-dominate rule overrides every textual token. -/
theorem fills_override_cancelled_cex :
    0 < numOr0 (OpenOrder.mk (some "cancelled") (some "100") (some "100")).size_matched ∧
    numOr0 (OpenOrder.mk (some "cancelled") (some "100") (some "100")).original_size ≤
      numOr0 (OpenOrder.mk (some "cancelled") (some "100") (some "100")).size_matched ∧
    mapApiStatusToInternal (OpenOrder.mk (some "cancelled") (some "100") (some "100")) ≠
      OrderStatus.FILLED ∧
    mapApiStatusToInternal (OpenOrder.mk (some "cancelled") (some "100") (some "100")) =
      OrderStatus.CANCELLED ∧
    mapApiStatusToInternal (OpenOrder.mk (some "expired") (some "100") (some "100")) =
      OrderStatus.EXPIRED ∧
    mapApiStatusToInternal (OpenOrder.mk (some "delayed") (some "100") (some "100")) =
      OrderStatus.PENDING ∧
    mapApiStatusToInternal (OpenOrder.mk (some "unknown-token") (some "100") (some "100")) =
      OrderStatus.OPEN := by
  decide

/-- C1 amended: when the effective status token (lowercased; an absent or
empty status defaults to `live`) is `matched` or `live`, `sizeMatched > 0`
together with `sizeMatched ≥ originalSize` yields FILLED; for the tokens
`cancelled`, `expired` and `delayed` the textual status prevails
(CANCELLED, EXPIRED, PENDING) regardless of the size fields; and an
unrecognized token yields OPEN regardless of the size fields. -/
theorem fills_override_scope (o : OpenOrder) :
    ((effStatus o = "matched" ∨ effStatus o = "live") →
      0 < numOr0 o.size_matched →
      numOr0 o.original_size ≤ numOr0 o.size_matched →
      mapApiStatusToInternal o = OrderStatus.FILLED) ∧
    (effStatus o = "cancelled" → mapApiStatusToInternal o = OrderStatus.CANCELLED) ∧
    (effStatus o = "expired" → mapApiStatusToInternal o = OrderStatus.EXPIRED) ∧
    (effStatus o = "delayed" → mapApiStatusToInternal o = OrderStatus.PENDING) ∧
    (effStatus o ∉ ["matched", "live", "delayed", "cancelled", "expired"] →
      mapApiStatusToInternal o = OrderStatus.OPEN) := by
  refine ⟨?_, ?_, ?_, ?_, ?_⟩
  · intro hs hpos hge
    unfold mapApiStatusToInternal
    rcases hs with h | h <;> rw [h]
    · rw [if_pos (rfl : ("matched" : String) = "matched")]
      exact if_pos hge
    · rw [if_neg (by decide : ¬ ("live" : String) = "matched")]
      rw [if_pos (rfl : ("live" : String) = "live")]
      rw [if_pos hpos]
      exact if_pos hge
  · intro h
    unfold mapApiStatusToInternal
    rw [h]
    rw [if_neg (by decide : ¬ ("cancelled" : String) = "matched")]
    rw [if_neg (by decide : ¬ ("cancelled" : String) = "live")]
    rw [if_neg (by decide : ¬ ("cancelled" : String) = "delayed")]
    exact if_pos rfl
  · intro h
    unfold mapApiStatusToInternal
    rw [h]
    rw [if_neg (by decide : ¬ ("expired" : String) = "matched")]
    rw [if_neg (by decide : ¬ ("expired" : String) = "live")]
    rw [if_neg (by decide : ¬ ("expired" : String) = "delayed")]
    rw [if_neg (by decide : ¬ ("expired" : String) = "cancelled")]
    exact if_pos rfl
  · intro h
    unfold mapApiStatusToInternal
    rw [h]
    rw [if_neg (by decide : ¬ ("delayed" : String) = "matched")]
    rw [if_neg (by decide : ¬ ("delayed" : String) = "live")]
    exact if_pos rfl
  · intro h
    simp only [List.mem_cons, List.not_mem_nil, or_false, not_or] at h
    obtain ⟨h1, h2, h3, h4, h5⟩ := h
    unfold mapApiStatusToInternal
    rw [if_neg h1, if_neg h2, if_neg h3, if_neg h4, if_neg h5]

/-- C1 amended witness: one concrete input per branch of the amended rule —
a fully-matched order still labeled `live` maps to FILLED, while
`Cancelled`, `Expired` and `delayed` inputs carrying positive matched
sizes keep their textual status, and an unrecognized token maps to OPEN. -/
theorem fills_override_scope_witness :
    mapApiStatusToInternal ⟨some "live", some "100", some "100"⟩ = OrderStatus.FILLED ∧
    mapApiStatusToInternal ⟨some "Cancelled", some "100", some "100"⟩ =
      OrderStatus.CANCELLED ∧
    mapApiStatusToInternal ⟨some "Expired", some "7", some "3"⟩ = OrderStatus.EXPIRED ∧
    mapApiStatusToInternal ⟨some "delayed", none, some "5"⟩ = OrderStatus.PENDING ∧
    mapApiStatusToInternal ⟨some "weird", some "1", some "2"⟩ = OrderStatus.OPEN :=
  ⟨(fills_override_scope ⟨some "live", some "100", some "100"⟩).1
      (Or.inr (by decide)) (by decide) (by decide),
   (fills_override_scope ⟨some "Cancelled", some "100", some "100"⟩).2.1 (by decide),
   (fills_override_scope ⟨some "Expired", some "7", some "3"⟩).2.2.1 (by decide),
   (fills_override_scope ⟨some "delayed", none, some "5"⟩).2.2.2.1 (by decide),
   (fills_override_scope ⟨some "weird", some "1", some "2"⟩).2.2.2.2 (by decide)⟩

/-- C3: each fill application computes
`min(originalSize, cumulativeFilled_old + delta)`, and over any sequence of
accepted non-negative deltas the cumulative fill never decreases, never
resets below its starting value, and never exceeds `originalSize`. -/
theorem cumulativeFilled_monotone_bounded (os cum d : ℚ) (ds ds' : List ℚ)
    (hcum : cum ≤ os) (h1 : ∀ x ∈ ds, 0 ≤ x) (h2 : ∀ x ∈ ds', 0 ≤ x) :
    applyFillAmount os cum d = min os (cum + d) ∧
    cum ≤ applyFills os cum ds ∧
    applyFills os cum ds ≤ os ∧
    applyFills os cum ds ≤ applyFills os cum (ds ++ ds') := by
  refine ⟨rfl, le_applyFills os ds cum hcum h1, applyFills_le os ds cum hcum, ?_⟩
  have hsplit : applyFills os cum (ds ++ ds') = applyFills os (applyFills os cum ds) ds' := by
    unfold applyFills
    exact List.foldl_append _ _ _ _
  rw [hsplit]
  exact le_applyFills os ds' _ (applyFills_le os ds cum hcum) h2

/-- C3 witness: with `originalSize = 10`, starting from 0, the fills 3 and
4 accumulate monotonically, stay within bound, and a further fill 5 only
moves the total forward. -/
theorem cumulativeFilled_monotone_bounded_witness :
    applyFillAmount 10 0 3 = min 10 (0 + 3) ∧
    (0 : ℚ) ≤ applyFills 10 0 [3, 4] ∧
    applyFills 10 0 [3, 4] ≤ 10 ∧
    applyFills 10 0 [3, 4] ≤ applyFills 10 0 ([3, 4] ++ [5]) :=
  cumulativeFilled_monotone_bounded 10 0 3 [3, 4] [5] (by decide) (by decide) (by decide)

/-- C4: a redelivered TradeEvent — the same `(tradeId, orderId)` pair — is
detected by the de-duplication set and dropped before the Fill Accountant
runs, so applying the same event twice leaves exactly the state reached
after applying it once. -/
theorem duplicate_trade_idempotent (os : ℚ) (st : EngineState) (t : TradeEvent) (p : Bool) :
    processTrade os (processTrade os st t p) t p = processTrade os st t p := by
  by_cases h : (t.tradeId, t.orderId) ∈ st.applied
  · simp [processTrade, h]
  · simp [processTrade, h]

/-- C5: a maker trade event with `matchedAmount = 0` and non-zero overall
size for a participant order takes the fallback `delta = tradeEvent.size`,
records the fallback via the flag, and (with room below `originalSize`)
raises `cumulativeFilled` by exactly the trade size. -/
theorem maker_zero_matched_fallback (t : TradeEvent) (os cum : ℚ)
    (hrole : t.role = Role.maker) (hzero : t.matchedAmount = 0) (hsize : t.size ≠ 0)
    (hroom : cum + t.size ≤ os) :
    fillDelta t true = ⟨t.size, true⟩ ∧
    (fillDelta t true).fallbackApplied = true ∧
    applyFillAmount os cum (fillDelta t true).delta = cum + t.size := by
  have hd : fillDelta t true = ⟨t.size, true⟩ := by
    unfold fillDelta
    rw [if_pos ⟨hrole, hzero, hsize, rfl⟩]
  refine ⟨hd, by rw [hd], ?_⟩
  rw [hd]
  show min os (cum + t.size) = cum + t.size
  exact min_eq_right hroom

/-- C5 witness: a maker trade of overall size 10 with `matchedAmount = 0`
for a watched order with `originalSize = 100` and no prior fills yields
`delta = 10`, cumulative fill `0 + 10`, and the fallback flag set. -/
theorem maker_zero_matched_fallback_witness :
    fillDelta ⟨"t1", "o1", 0, 1 / 2, 10, Role.maker, TradeStatus.CONFIRMED, 0⟩ true =
      ⟨10, true⟩ ∧
    (fillDelta ⟨"t1", "o1", 0, 1 / 2, 10, Role.maker, TradeStatus.CONFIRMED, 0⟩
        true).fallbackApplied = true ∧
    applyFillAmount 100 0
        (fillDelta ⟨"t1", "o1", 0, 1 / 2, 10, Role.maker, TradeStatus.CONFIRMED, 0⟩
          true).delta = 0 + 10 :=
  maker_zero_matched_fallback
    ⟨"t1", "o1", 0, 1 / 2, 10, Role.maker, TradeStatus.CONFIRMED, 0⟩ 100 0
    rfl rfl (by norm_num) (by norm_num)

/-- C6: after `watchOrder("o1", "YES-token")` the order's `initialTokenId`
stays `"YES-token"` across any sequence of poll/push updates, whatever
token they report; in general no update sequence changes
`initialTokenId`. -/
theorem initialTokenId_immutable (os : ℚ) (us : List OrderUpdate) :
    (us.foldl applyUpdate (watchOrder "o1" "YES-token" os)).initialTokenId = "YES-token" ∧
    ∀ w : WatchedOrder, (us.foldl applyUpdate w).initialTokenId = w.initialTokenId :=
  ⟨foldl_applyUpdate_initialTokenId us (watchOrder "o1" "YES-token" os),
   foldl_applyUpdate_initialTokenId us⟩

end PolySdk
